import Mathlib

/-!
Shallow embedding of the MPC controller in `src/MPC.cpp` of the
CarND-MPC-Project-P5 repository.

Modelling conventions:
* `double` arithmetic is idealised as exact rational arithmetic (`ℚ`);
* the transcendental functions `cos`, `sin`, `atan` are passed as abstract
  function parameters, so every definition stays computable;
* Eigen/CppAD vectors are modelled as `List ℚ`, with element reads
  `List.getD i 0` mirroring `v[i]` / `v(i)`;
* the uninitialised allocation `Eigen::VectorXd next_state(state.size())`
  is modelled as a `List (Option ℚ)` of `none`s, so that a slot that is
  never assigned stays `none`;
* the external Ipopt solver is an opaque function parameter from the
  assembled problem data to a `solve_result`.
-/

namespace CarndMPC

/-- The planning horizon, `const size_t N = 11` in MPC.cpp. -/
def N : Nat := 11

/-- The timestep, `const double dt = 0.1` in MPC.cpp. -/
def dt : ℚ := 1/10

/-- The front-axle-to-CoG length, `const double Lf = 2.67` in MPC.cpp. -/
def Lf : ℚ := 267/100

/-- Offset of the x block in the trajectory vector (`size_t x_start = 0`). -/
def x_start : Nat := 0

/-- Offset of the y block (`y_start = x_start + N`). -/
def y_start : Nat := x_start + N

/-- Offset of the psi block (`psi_start = y_start + N`). -/
def psi_start : Nat := y_start + N

/-- Offset of the v block (`v_start = psi_start + N`). -/
def v_start : Nat := psi_start + N

/-- Offset of the cte block (`cte_start = v_start + N`). -/
def cte_start : Nat := v_start + N

/-- Offset of the epsi block (`epsi_start = cte_start + N`). -/
def epsi_start : Nat := cte_start + N

/-- Offset of the delta block (`delta_start = epsi_start + N`). -/
def delta_start : Nat := epsi_start + N

/-- Offset of the a block (`a_start = delta_start + N - 1`). -/
def a_start : Nat := delta_start + N - 1

/-- Number of decision variables, `n_vars = N * 6 + (N - 1) * 2` (MPC.cpp line 134). -/
def n_vars : Nat := N * 6 + (N - 1) * 2

/-- Number of constraints, `n_constraints = N * 6` (MPC.cpp line 136). -/
def n_constraints : Nat := N * 6

/-- The fitted path polynomial `f_x` evaluated inside `FG_eval::operator()`
(MPC.cpp line 95): `coeffs[0] + coeffs[1]*x + coeffs[2]*x^2 + coeffs[3]*x^3`. -/
def f_x (coeffs : List ℚ) (x : ℚ) : ℚ :=
  coeffs.getD 0 0 + coeffs.getD 1 0 * x + coeffs.getD 2 0 * x^2 + coeffs.getD 3 0 * x^3

/-- The desired-heading term `psi_des` computed inside `FG_eval::operator()`
(MPC.cpp line 96), exactly as written in the source:
`CppAD::atan(coeffs[1] + (2 * coeffs[3] * x) + (3 * coeffs[3] * pow(x, 2)))`.
Note that the source uses `coeffs[3]` (not `coeffs[2]`) in the linear term. -/
def psi_des (atan : ℚ → ℚ) (coeffs : List ℚ) (x : ℚ) : ℚ :=
  atan (coeffs.getD 1 0 + 2 * coeffs.getD 3 0 * x + 3 * coeffs.getD 3 0 * x^2)

/-- The x-component of the kinematic-model prediction used in the x constraint
residual of `FG_eval::operator()` (MPC.cpp line 99): `x + v * cos(psi) * dt`. -/
def fgNextX (cos : ℚ → ℚ) (x psi v : ℚ) : ℚ := x + v * cos psi * dt

/-- The y-component of the kinematic-model prediction used in the y constraint
residual of `FG_eval::operator()` (MPC.cpp line 100): `y + v * sin(psi) * dt`. -/
def fgNextY (sin : ℚ → ℚ) (y psi v : ℚ) : ℚ := y + v * sin psi * dt

/-- The psi-component of the kinematic-model prediction used in the psi
constraint residual of `FG_eval::operator()` (MPC.cpp line 101):
`psi + v * delta / Lf * dt`. -/
def fgNextPsi (psi v delta : ℚ) : ℚ := psi + v * delta / Lf * dt

/-- The v-component of the kinematic-model prediction used in the v constraint
residual of `FG_eval::operator()` (MPC.cpp line 102): `v + alpha * dt`. -/
def fgNextV (v alpha : ℚ) : ℚ := v + alpha * dt

/-- The six kinematic constraint residuals written by the loop body of
`FG_eval::operator()` (MPC.cpp lines 74-105) for one timestep `i`:
the values stored at `fg[2 + x_start + i]`, `fg[2 + y_start + i]`,
`fg[2 + psi_start + i]`, `fg[2 + v_start + i]`, `fg[2 + cte_start + i]`
and `fg[2 + epsi_start + i]`, in that order. -/
def fgKinematic (atan cos sin : ℚ → ℚ) (coeffs : List ℚ) (vars : Nat → ℚ)
    (i : Nat) : ℚ × ℚ × ℚ × ℚ × ℚ × ℚ :=
  let x1 := vars (x_start + i + 1)
  let y1 := vars (y_start + i + 1)
  let psi1 := vars (psi_start + i + 1)
  let v1 := vars (v_start + i + 1)
  let cte1 := vars (cte_start + i + 1)
  let epsi1 := vars (epsi_start + i + 1)
  let x := vars (x_start + i)
  let y := vars (y_start + i)
  let psi := vars (psi_start + i)
  let v := vars (v_start + i)
  let epsi := vars (epsi_start + i)
  let delta := vars (delta_start + i)
  let alpha := vars (a_start + i)
  (x1 - fgNextX cos x psi v,
   y1 - fgNextY sin y psi v,
   psi1 - fgNextPsi psi v delta,
   v1 - fgNextV v alpha,
   cte1 - ((f_x coeffs x - y) + (v * sin epsi * dt)),
   epsi1 - ((psi - psi_des atan coeffs x) + v * delta / Lf * dt))

/-- The six initial constraint values written by `FG_eval::operator()`
(MPC.cpp lines 66-71): `fg[1 + s] = vars[s]` for each block offset `s`;
the residual at timestep 0 is the trajectory variable itself. -/
def fgInitial (vars : Nat → ℚ) : ℚ × ℚ × ℚ × ℚ × ℚ × ℚ :=
  (vars x_start, vars y_start, vars psi_start,
   vars v_start, vars cte_start, vars epsi_start)

/-- A C-style accumulation loop: starting from `s`, add `f i` for
`i = 0, 1, ..., n-1` (models repeated `fg[0] += ...`). -/
def loopAccFrom (s : ℚ) (f : Nat → ℚ) : Nat → ℚ
  | 0 => s
  | n + 1 => loopAccFrom s f n + f n

/-- The scalar objective `fg[0]` written by `FG_eval::operator()`
(MPC.cpp lines 44-63): three sequential accumulation loops over the
reference-state terms, the actuator-magnitude terms, and the
actuation-gap terms. -/
def cost (refCte refEpsi refV : ℚ) (vars : Nat → ℚ) : ℚ :=
  loopAccFrom
    (loopAccFrom
      (loopAccFrom 0
        (fun i => 16 * (vars (cte_start + i) - refCte)^2
          + 12 * (vars (epsi_start + i) - refEpsi)^2
          + (vars (v_start + i) - refV)^2) N)
      (fun i => 8 * (vars (delta_start + i))^2 + 6 * (vars (a_start + i))^2)
      (N - 1))
    (fun i => 400 * (vars (delta_start + i + 1) - vars (delta_start + i))^2
      + 10 * (vars (a_start + i + 1) - vars (a_start + i))^2)
    (N - 2)

/-- `MPC::Predict` (MPC.cpp lines 242-260): allocate `next_state` with
`state.size()` entries (uninitialised, modelled as `none`), then assign
components 0-3 from the kinematic model.  Reads `state(0..3)` and
`actuators(0..1)`; the `dt` argument shadows the file-level constant. -/
def Predict (cos sin : ℚ → ℚ) (state actuators : List ℚ) (dtArg : ℚ) :
    List (Option ℚ) :=
  let x := state.getD 0 0
  let y := state.getD 1 0
  let psi := state.getD 2 0
  let v := state.getD 3 0
  let delta := actuators.getD 0 0
  let a := actuators.getD 1 0
  ((((List.replicate state.length (none : Option ℚ)).set 0
      (some (x + (v * cos psi * dtArg)))).set 1
      (some (y + (v * sin psi * dtArg)))).set 2
      (some (psi + (v / Lf * delta * dtArg)))).set 3
      (some (v + (a * dtArg)))

/-- The initial decision-variable vector built by `MPC::Solve`
(MPC.cpp lines 140-150): every entry 0.0, then the six block-start slots
overwritten with the components of `state`. -/
def varsInit (state : List ℚ) (i : Nat) : ℚ :=
  if i = x_start then state.getD 0 0
  else if i = y_start then state.getD 1 0
  else if i = psi_start then state.getD 2 0
  else if i = v_start then state.getD 3 0
  else if i = cte_start then state.getD 4 0
  else if i = epsi_start then state.getD 5 0
  else 0

/-- Decision-variable lower bounds built by `MPC::Solve`
(MPC.cpp lines 153-176): `-1.0e19` for `i < delta_start`, `-0.436332`
for `delta_start <= i < a_start`, `-1.0` for `a_start <= i < n_vars`. -/
def varsLowerboundFn (i : Nat) : ℚ :=
  if i < delta_start then -(10^19)
  else if i < a_start then -(436332/1000000)
  else -1

/-- Decision-variable upper bounds built by `MPC::Solve`
(MPC.cpp lines 153-176): `1.0e19` for `i < delta_start`, `0.436332`
for `delta_start <= i < a_start`, `1.0` for `a_start <= i < n_vars`. -/
def varsUpperboundFn (i : Nat) : ℚ :=
  if i < delta_start then 10^19
  else if i < a_start then 436332/1000000
  else 1

/-- Constraint lower bounds built by `MPC::Solve` (MPC.cpp lines 180-192):
all zero, then the six block-start slots overwritten with `state`. -/
def constraintsLowerboundFn (state : List ℚ) (i : Nat) : ℚ :=
  if i = x_start then state.getD 0 0
  else if i = y_start then state.getD 1 0
  else if i = psi_start then state.getD 2 0
  else if i = v_start then state.getD 3 0
  else if i = cte_start then state.getD 4 0
  else if i = epsi_start then state.getD 5 0
  else 0

/-- Constraint upper bounds built by `MPC::Solve` (MPC.cpp lines 180-199):
all zero, then the six block-start slots overwritten with `state`. -/
def constraintsUpperboundFn (state : List ℚ) (i : Nat) : ℚ :=
  if i = x_start then state.getD 0 0
  else if i = y_start then state.getD 1 0
  else if i = psi_start then state.getD 2 0
  else if i = v_start then state.getD 3 0
  else if i = cte_start then state.getD 4 0
  else if i = epsi_start then state.getD 5 0
  else 0

/-- Termination status of the opaque Ipopt solver,
`CppAD::ipopt::solve_result<Dvector>::status_type` (abridged). -/
inductive IpoptStatus
  | success
  | maxiter_exceeded
  | stop_at_tiny_step
  | local_infeasibility
  | unknown
  deriving DecidableEq

/-- The data `MPC::Solve` hands to `CppAD::ipopt::solve`
(MPC.cpp lines 227-229): initial variables, variable bounds, constraint
bounds, and the `FG_eval` payload (`coeffs` plus the reference targets). -/
structure SolverInput where
  vars : List ℚ
  vars_lowerbound : List ℚ
  vars_upperbound : List ℚ
  constraints_lowerbound : List ℚ
  constraints_upperbound : List ℚ
  coeffs : List ℚ
  ref_cte : ℚ
  ref_epsi : ℚ
  ref_v : ℚ

/-- The solver's `solve_result`: a status, the solution vector `x`, and the
objective value. -/
structure SolveResult where
  status : IpoptStatus
  x : Nat → ℚ
  obj_value : ℚ

/-- The success check `solution.status == success` computed (into the local
`ok`) by `MPC::Solve` at MPC.cpp line 232. -/
def solveOk (solution : SolveResult) : Bool :=
  solution.status == IpoptStatus.success

/-- Everything `MPC::Solve` assembles before calling the solver
(MPC.cpp lines 126-203): the seeded variable vector, both variable-bound
vectors, both constraint-bound vectors, and the `FG_eval` data.  The source
performs no validation of the lengths of `state` or `coeffs`. -/
def buildProblem (state coeffs : List ℚ) (refCte refEpsi refV : ℚ) :
    SolverInput where
  vars := (List.range n_vars).map (varsInit state)
  vars_lowerbound := (List.range n_vars).map varsLowerboundFn
  vars_upperbound := (List.range n_vars).map varsUpperboundFn
  constraints_lowerbound := (List.range n_constraints).map (constraintsLowerboundFn state)
  constraints_upperbound := (List.range n_constraints).map (constraintsUpperboundFn state)
  coeffs := coeffs
  ref_cte := refCte
  ref_epsi := refEpsi
  ref_v := refV

/-- `MPC::Solve` (MPC.cpp lines 121-240), with the external Ipopt call as an
opaque parameter `solver`.  It assembles the problem, invokes the solver,
computes `ok` (line 232, never consulted afterwards), and unconditionally
returns `{ solution.x[delta_start], solution.x[a_start] }` (line 239). -/
def Solve (solver : SolverInput → SolveResult) (refCte refEpsi refV : ℚ)
    (state coeffs : List ℚ) : List ℚ :=
  let solution := solver (buildProblem state coeffs refCte refEpsi refV)
  let _ok := solveOk solution
  [solution.x delta_start, solution.x a_start]

/-- A stand-in for a solver run that terminates without success: status
`local_infeasibility`, solution vector identically 99 (garbage). -/
def badSolver : SolverInput → SolveResult :=
  fun _ => ⟨IpoptStatus.local_infeasibility, fun _ => 99, 0⟩

/-- A stand-in solver whose output marks that it was invoked: status
`success`, solution vector identically 42. -/
def probeSolver : SolverInput → SolveResult :=
  fun _ => ⟨IpoptStatus.success, fun _ => 42, 0⟩

/-- Accumulation loops compute the finite sum shifted by the start value. -/
theorem loopAccFrom_eq (s : ℚ) (f : Nat → ℚ) (n : Nat) :
    loopAccFrom s f n = s + ∑ i ∈ Finset.range n, f i := by
  induction n with
  | zero => simp [loopAccFrom]
  | succ n ih => rw [loopAccFrom, ih, Finset.sum_range_succ, add_assoc]

/-- Claim C9: the scalar objective written by the builder equals the sum over
all N timesteps of `16*(cte_t - cte_ref)^2 + 12*(epsi_t - epsi_ref)^2 +
1*(v_t - v_ref)^2`, plus the sum over the first N-1 timesteps of
`8*delta_t^2 + 6*a_t^2`, plus the sum over timesteps 0..N-3 of
`400*(delta_{t+1} - delta_t)^2 + 10*(a_{t+1} - a_t)^2`. -/
theorem cost_is_weighted_sum (refCte refEpsi refV : ℚ) (vars : Nat → ℚ) :
    cost refCte refEpsi refV vars =
      (∑ t ∈ Finset.range N,
        (16 * (vars (cte_start + t) - refCte)^2
          + 12 * (vars (epsi_start + t) - refEpsi)^2
          + 1 * (vars (v_start + t) - refV)^2))
      + (∑ t ∈ Finset.range (N - 1),
          (8 * (vars (delta_start + t))^2 + 6 * (vars (a_start + t))^2))
      + (∑ t ∈ Finset.range (N - 2),
          (400 * (vars (delta_start + t + 1) - vars (delta_start + t))^2
            + 10 * (vars (a_start + t + 1) - vars (a_start + t))^2)) := by
  simp only [cost, loopAccFrom_eq, one_mul, zero_add]

/-- Claim C6: the trajectory vector has length `6*N + 2*(N-1)` and
concatenates, in order, N slots each for x, y, psi, v, cte, epsi, then
N-1 slots for delta and N-1 for a; the block offsets are single shared
definitions (as the shared globals in the source), the seeding in `Solve`
writes the state components at those offsets, and each actuation block is
one slot shorter than each state block. -/
theorem trajectory_layout :
    n_vars = 6 * N + 2 * (N - 1) ∧
    x_start = 0 ∧ y_start = x_start + N ∧ psi_start = y_start + N ∧
    v_start = psi_start + N ∧ cte_start = v_start + N ∧
    epsi_start = cte_start + N ∧ delta_start = epsi_start + N ∧
    a_start = delta_start + (N - 1) ∧ a_start + (N - 1) = n_vars ∧
    a_start - delta_start = N - 1 ∧ n_vars - a_start = N - 1 ∧
    N - 1 + 1 = N ∧
    (∀ state coeffs refCte refEpsi refV,
      (buildProblem state coeffs refCte refEpsi refV).vars.length
        = 6 * N + 2 * (N - 1)) ∧
    (∀ state : List ℚ,
      varsInit state x_start = state.getD 0 0 ∧
      varsInit state y_start = state.getD 1 0 ∧
      varsInit state psi_start = state.getD 2 0 ∧
      varsInit state v_start = state.getD 3 0 ∧
      varsInit state cte_start = state.getD 4 0 ∧
      varsInit state epsi_start = state.getD 5 0) := by
  refine ⟨by decide, by decide, by decide, by decide, by decide, by decide,
    by decide, by decide, by decide, by decide, by decide, by decide, by decide,
    ?_, ?_⟩
  · intro state coeffs refCte refEpsi refV
    simp only [buildProblem, List.length_map, List.length_range]
    decide
  · intro state
    refine ⟨?_, ?_, ?_, ?_, ?_, ?_⟩ <;>
      norm_num [varsInit, x_start, y_start, psi_start, v_start, cte_start,
        epsi_start, N]

/-- Claim C7: the variable bounds passed to the solver are `-1.0e19`/`1.0e19`
for every one of the `6*N` state slots (`i < delta_start = 6*N`),
`-0.436332`/`0.436332` for every delta slot, and `-1`/`1` for every a slot,
with N-1 delta slots and N-1 a slots. -/
theorem variable_bounds :
    delta_start = 6 * N ∧ a_start - delta_start = N - 1 ∧
    n_vars - a_start = N - 1 ∧
    (∀ i, i < delta_start →
      varsLowerboundFn i = -(10^19) ∧ varsUpperboundFn i = 10^19) ∧
    (∀ i, delta_start ≤ i → i < a_start →
      varsLowerboundFn i = -(436332/1000000) ∧
      varsUpperboundFn i = 436332/1000000) ∧
    (∀ i, a_start ≤ i → i < n_vars →
      varsLowerboundFn i = -1 ∧ varsUpperboundFn i = 1) := by
  refine ⟨by decide, by decide, by decide, ?_, ?_, ?_⟩
  · intro i hi
    simp [varsLowerboundFn, varsUpperboundFn, hi]
  · intro i h1 h2
    simp [varsLowerboundFn, varsUpperboundFn, Nat.not_lt.mpr h1, h2]
  · intro i h1 _h2
    have hd : ¬ i < delta_start := by
      intro h; exact absurd (lt_of_lt_of_le h (by decide)) (Nat.not_lt.mpr h1)
    have ha : ¬ i < a_start := Nat.not_lt.mpr h1
    simp [varsLowerboundFn, varsUpperboundFn, hd, ha]

/-- Witness for C7 at concrete indices: the first state slot, the first delta
slot (66) and the first a slot (76). -/
theorem variable_bounds_witness :
    (varsLowerboundFn 0 = -(10^19) ∧ varsUpperboundFn 0 = 10^19) ∧
    (varsLowerboundFn 66 = -(436332/1000000) ∧
      varsUpperboundFn 66 = 436332/1000000) ∧
    (varsLowerboundFn 76 = -1 ∧ varsUpperboundFn 76 = 1) :=
  ⟨variable_bounds.2.2.2.1 0 (by decide),
   variable_bounds.2.2.2.2.1 66 (by decide) (by decide),
   variable_bounds.2.2.2.2.2 76 (by decide) (by decide)⟩

/-- Claim C4: for every state (x, y, psi, v), actuation (delta, a), and time
step dt, `Predict` returns exactly `(x + v*cos(psi)*dt, y + v*sin(psi)*dt,
psi + (v/Lf)*delta*dt, v + a*dt)` with `Lf = 2.67`; in particular, for any
cos/sin with `cos 0 = 1` and `sin 0 = 0`,
`Predict((0,0,0,10), (0,0), 0.1) = (1.0, 0.0, 0.0, 10.0)`. -/
theorem predict_kinematic_step (cos sin : ℚ → ℚ)
    (hcos : cos 0 = 1) (hsin : sin 0 = 0) (x y psi v delta a dtArg : ℚ) :
    Predict cos sin [x, y, psi, v] [delta, a] dtArg =
      [some (x + v * cos psi * dtArg), some (y + v * sin psi * dtArg),
       some (psi + (v / Lf) * delta * dtArg), some (v + a * dtArg)] ∧
    Lf = 267/100 ∧
    Predict cos sin [0, 0, 0, 10] [0, 0] (1/10) =
      [some 1, some 0, some 0, some 10] := by
  refine ⟨rfl, rfl, ?_⟩
  simp only [Predict, List.getD]
  norm_num [hcos, hsin]
  decide

/-- Witness for C4: the hypotheses hold for the constant functions
`fun _ => 1` and `fun _ => 0`. -/
theorem predict_kinematic_step_witness :
    Predict (fun _ => 1) (fun _ => 0) [2, 3, 0, 10] [0, 1] (1/10) =
      [some (2 + 10 * (fun _ : ℚ => (1:ℚ)) 0 * (1/10)),
       some (3 + 10 * (fun _ : ℚ => (0:ℚ)) 0 * (1/10)),
       some (0 + (10 / Lf) * 0 * (1/10)), some (10 + 1 * (1/10))] ∧
    Lf = 267/100 ∧
    Predict (fun _ => 1) (fun _ => 0) [0, 0, 0, 10] [0, 0] (1/10) =
      [some 1, some 0, some 0, some 10] :=
  predict_kinematic_step (fun _ => 1) (fun _ => 0) rfl rfl 2 3 0 10 0 1 (1/10)

/-- Claim C5: the kinematic model is evaluated identically at its two call
sites: the next-state values inside the optimizer's x, y, psi, v constraint
residuals (`fgNextX/Y/Psi/V`, which are by definition the subtracted terms of
`fgKinematic`) coincide with the components `Predict` returns at the
configured `dt`, for every state and actuation. -/
theorem kinematic_model_single_source (cos sin atan : ℚ → ℚ)
    (coeffs : List ℚ) (vars : Nat → ℚ) (i : Nat) (x y psi v delta a : ℚ) :
    ((fgKinematic atan cos sin coeffs vars i).1 =
        vars (x_start + i + 1)
          - fgNextX cos (vars (x_start + i)) (vars (psi_start + i))
              (vars (v_start + i)) ∧
      (fgKinematic atan cos sin coeffs vars i).2.1 =
        vars (y_start + i + 1)
          - fgNextY sin (vars (y_start + i)) (vars (psi_start + i))
              (vars (v_start + i)) ∧
      (fgKinematic atan cos sin coeffs vars i).2.2.1 =
        vars (psi_start + i + 1)
          - fgNextPsi (vars (psi_start + i)) (vars (v_start + i))
              (vars (delta_start + i)) ∧
      (fgKinematic atan cos sin coeffs vars i).2.2.2.1 =
        vars (v_start + i + 1)
          - fgNextV (vars (v_start + i)) (vars (a_start + i))) ∧
    Predict cos sin [x, y, psi, v] [delta, a] dt =
      [some (fgNextX cos x psi v), some (fgNextY sin y psi v),
       some (fgNextPsi psi v delta), some (fgNextV v a)] := by
  refine ⟨⟨rfl, rfl, rfl, rfl⟩, ?_⟩
  show [some (x + v * cos psi * dt), some (y + v * sin psi * dt),
      some (psi + v / Lf * delta * dt), some (v + a * dt)] =
    [some (fgNextX cos x psi v), some (fgNextY sin y psi v),
      some (fgNextPsi psi v delta), some (fgNextV v a)]
  have hpsi : psi + v / Lf * delta * dt = fgNextPsi psi v delta := by
    simp only [fgNextPsi]
    ring
  rw [hpsi]
  rfl

/-- Claim C10: `Predict` allocates its result with the same size as the input
state vector but assigns only the first four components; every component
beyond index 3 is never written (stays `none` in the uninitialised-slot
model). -/
theorem predict_unwritten_slots (cos sin : ℚ → ℚ) (state actuators : List ℚ)
    (dtArg : ℚ) (i : Nat) (h4 : 4 ≤ i) (hi : i < state.length) :
    (Predict cos sin state actuators dtArg).length = state.length ∧
    (Predict cos sin state actuators dtArg).getD i none = none := by
  constructor
  · simp [Predict]
  · have h0 : i ≠ 0 := by omega
    have h1 : i ≠ 1 := by omega
    have h2 : i ≠ 2 := by omega
    have h3 : i ≠ 3 := by omega
    simp [Predict, List.getD, List.getElem?_set, h0.symm, h1.symm, h2.symm,
      h3.symm, List.getElem?_replicate, hi]

/-- Witness for C10: a six-component Vehicle State; slots 4 and 5 (cte, epsi)
of the result are unwritten. -/
theorem predict_unwritten_slots_witness :
    (Predict id id [0, 0, 0, 10, 1, 2] [0, 0] (1/10)).length = 6 ∧
    (Predict id id [0, 0, 0, 10, 1, 2] [0, 0] (1/10)).getD 4 none = none :=
  predict_unwritten_slots id id [0, 0, 0, 10, 1, 2] [0, 0] (1/10) 4
    (by decide) (by decide)

/-- Claim C1 (code bug): at coefficients (0, 0, 1, 0) and x = 1 the source's
desired-heading term evaluates to `atan 0`, not the
`atan(c1 + 2*c2*x + 3*c3*x^2) = atan 2` the claim requires: line 96 of
MPC.cpp uses `coeffs[3]` instead of `coeffs[2]` in the linear term of the
derivative. -/
theorem psi_des_wrong_coefficient (atan : ℚ → ℚ)
    (hinj : Function.Injective atan) :
    psi_des atan [0, 0, 1, 0] 1 = atan 0 ∧
    psi_des atan [0, 0, 1, 0] 1 ≠
      atan (([0, 0, 1, 0] : List ℚ).getD 1 0
        + 2 * ([0, 0, 1, 0] : List ℚ).getD 2 0 * 1
        + 3 * ([0, 0, 1, 0] : List ℚ).getD 3 0 * 1^2) := by
  have h0 : psi_des atan [0, 0, 1, 0] 1 = atan 0 := by
    norm_num [psi_des]
  have h2 : (([0, 0, 1, 0] : List ℚ).getD 1 0
      + 2 * ([0, 0, 1, 0] : List ℚ).getD 2 0 * 1
      + 3 * ([0, 0, 1, 0] : List ℚ).getD 3 0 * 1^2) = 2 := by
    norm_num
  refine ⟨h0, ?_⟩
  rw [h0, h2]
  intro h
  have := hinj h
  norm_num at this

/-- Witness for C1: the identity function is injective. -/
theorem psi_des_wrong_coefficient_witness :
    psi_des (id : ℚ → ℚ) [0, 0, 1, 0] 1 = id 0 ∧
    psi_des (id : ℚ → ℚ) [0, 0, 1, 0] 1 ≠
      id (([0, 0, 1, 0] : List ℚ).getD 1 0
        + 2 * ([0, 0, 1, 0] : List ℚ).getD 2 0 * 1
        + 3 * ([0, 0, 1, 0] : List ℚ).getD 3 0 * 1^2) :=
  psi_des_wrong_coefficient id (fun _ _ h => h)

/-- Claim C2 (code bug): `Solve` returns
`{solution.x[delta_start], solution.x[a_start]}` unconditionally — the
return value is the same function of the solver output whatever the status;
in particular a solver run that reports `local_infeasibility` with garbage
values 99 still yields the actuation (99, 99), with the computed `ok` check
false and never consulted. -/
theorem solve_ignores_solver_status :
    (∀ (solver : SolverInput → SolveResult) (refCte refEpsi refV : ℚ)
      (state coeffs : List ℚ),
      Solve solver refCte refEpsi refV state coeffs =
        [(solver (buildProblem state coeffs refCte refEpsi refV)).x delta_start,
         (solver (buildProblem state coeffs refCte refEpsi refV)).x a_start]) ∧
    solveOk (badSolver (buildProblem [0, 0, 0, 10, 0, 0] [0, 0, 0, 0] 0 0 40))
      = false ∧
    Solve badSolver 0 0 40 [0, 0, 0, 10, 0, 0] [0, 0, 0, 0] = [99, 99] :=
  ⟨fun _ _ _ _ _ _ => rfl, rfl, rfl⟩

/-- Counterexample for C3: with a 3-element coefficient vector — fewer than
the 4 the cubic-path builder reads — `Solve` does not fail fast: it invokes
the solver (whose probe values it returns) and passes the short coefficient
vector through to the solver input unchanged. -/
theorem solve_no_validation_counterexample :
    ([1, 2, 3] : List ℚ).length < 4 ∧
    Solve probeSolver 0 0 40 [0, 0, 0, 10, 0, 0] [1, 2, 3] = [42, 42] ∧
    (buildProblem [0, 0, 0, 10, 0, 0] [1, 2, 3] 0 0 40).coeffs = [1, 2, 3] :=
  ⟨by decide, rfl, rfl⟩

/-- Claim C3 amended: `Solve` performs no validation of the lengths of
`state` or `coeffs`; for every input it assembles the full problem, invokes
the external solver, passes the coefficient vector through unchanged, and
returns the solver's first-actuation slots. -/
theorem solve_has_no_input_validation (solver : SolverInput → SolveResult)
    (refCte refEpsi refV : ℚ) (state coeffs : List ℚ) :
    Solve solver refCte refEpsi refV state coeffs =
      [(solver (buildProblem state coeffs refCte refEpsi refV)).x delta_start,
       (solver (buildProblem state coeffs refCte refEpsi refV)).x a_start] ∧
    (buildProblem state coeffs refCte refEpsi refV).coeffs = coeffs :=
  ⟨rfl, rfl⟩

/-- Counterexample for C8: the timestep-0 residual written by the builder is
the trajectory variable itself, not "variable minus known initial state":
with every trajectory slot equal to 5 and initial x-component 3, the written
x residual is 5, not 5 - 3. -/
theorem initial_residual_counterexample :
    (fgInitial (fun _ => (5 : ℚ))).1 = 5 ∧
    (fgInitial (fun _ => (5 : ℚ))).1 ≠
      (fun _ => (5 : ℚ)) x_start - ([3, 0, 0, 0, 0, 0] : List ℚ).getD 0 0 := by
  refine ⟨rfl, ?_⟩
  norm_num [fgInitial]

/-- Claim C8 amended: the timestep-0 residual for each state dimension is the
trajectory variable itself (`fg[1 + s] = vars[s]`); equality to the measured
state is enforced through the constraint bounds, which are all zero except
the six initial-timestep slots, pinned to the exact components of the
supplied state on both lower and upper bound. -/
theorem initial_pinning_via_bounds (vars : Nat → ℚ) (state : List ℚ) :
    fgInitial vars = (vars x_start, vars y_start, vars psi_start,
      vars v_start, vars cte_start, vars epsi_start) ∧
    n_constraints = 6 * N ∧
    (∀ i, i < n_constraints → i ≠ x_start → i ≠ y_start → i ≠ psi_start →
      i ≠ v_start → i ≠ cte_start → i ≠ epsi_start →
      constraintsLowerboundFn state i = 0 ∧
      constraintsUpperboundFn state i = 0) ∧
    (constraintsLowerboundFn state x_start = state.getD 0 0 ∧
      constraintsUpperboundFn state x_start = state.getD 0 0) ∧
    (constraintsLowerboundFn state y_start = state.getD 1 0 ∧
      constraintsUpperboundFn state y_start = state.getD 1 0) ∧
    (constraintsLowerboundFn state psi_start = state.getD 2 0 ∧
      constraintsUpperboundFn state psi_start = state.getD 2 0) ∧
    (constraintsLowerboundFn state v_start = state.getD 3 0 ∧
      constraintsUpperboundFn state v_start = state.getD 3 0) ∧
    (constraintsLowerboundFn state cte_start = state.getD 4 0 ∧
      constraintsUpperboundFn state cte_start = state.getD 4 0) ∧
    (constraintsLowerboundFn state epsi_start = state.getD 5 0 ∧
      constraintsUpperboundFn state epsi_start = state.getD 5 0) := by
  refine ⟨rfl, by decide, ?_, ?_, ?_, ?_, ?_, ?_, ?_⟩
  · intro i _hi h0 h1 h2 h3 h4 h5
    simp [constraintsLowerboundFn, constraintsUpperboundFn,
      h0, h1, h2, h3, h4, h5]
  all_goals
    norm_num [constraintsLowerboundFn, constraintsUpperboundFn, x_start,
      y_start, psi_start, v_start, cte_start, epsi_start, N]

/-- Witness for C8: a concrete state and a concrete non-start index. -/
theorem initial_pinning_via_bounds_witness :
    (constraintsLowerboundFn [1, 2, 3, 4, 5, 6] 7 = 0 ∧
      constraintsUpperboundFn [1, 2, 3, 4, 5, 6] 7 = 0) ∧
    (constraintsLowerboundFn [1, 2, 3, 4, 5, 6] x_start
        = ([1, 2, 3, 4, 5, 6] : List ℚ).getD 0 0 ∧
      constraintsUpperboundFn [1, 2, 3, 4, 5, 6] x_start
        = ([1, 2, 3, 4, 5, 6] : List ℚ).getD 0 0) :=
  ⟨(initial_pinning_via_bounds (fun _ => 0) [1, 2, 3, 4, 5, 6]).2.2.1 7
      (by decide) (by decide) (by decide) (by decide) (by decide) (by decide)
      (by decide),
   (initial_pinning_via_bounds (fun _ => 0) [1, 2, 3, 4, 5, 6]).2.2.2.1⟩

end CarndMPC
